import Mathlib

/-!
Verification development for the kikitan-translator bridge process
(src/src-tauri/src/main.rs). The file shallowly embeds the stateful
network relay layer: the Qwen WebSocket proxy commands
(qwen_ws_connect, qwen_ws_send, qwen_ws_close), the VRChat OSC
listener (start_vrc_listener and its receive loop), the one-shot OSC
senders (send_typing, send_message), and the OSC datagram codec.

Network effects are modelled by passing their outcomes as explicit
parameters (an enum of the possible results of each fallible external
step); the pure control flow around those outcomes is translated
directly from the source.
-/

namespace Kikitan

/-- Abstract token standing for the send-half of a split WebSocket
stream (the SplitSink value stored in QwenWsState.sender). Its only
relevant property in the source is its identity as an owned resource,
so it is modelled as an opaque tag. -/
structure Sender where
  id : Nat
deriving DecidableEq

/-- A WebSocket frame written on the send-half: a text frame
(Message.Text in the source) or a close frame (Message.Close). -/
inductive Frame where
  | text (s : String)
  | close
deriving DecidableEq

/-- Outcome of awaiting one frame write on the send-half, supplied as
a parameter: the network either accepts the frame or fails with a
tungstenite error rendered as a string. -/
inductive SendOutcome where
  | ok
  | err (e : String)
deriving DecidableEq

/-- Observable effect of one qwen_ws_send / qwen_ws_close call:
the shared state while the awaited write is in flight (after the
`take` on the mutex-guarded Option), the shared state after the call
returns, the frames written on the send-half, and the returned
Result. -/
structure SendCall where
  stateDuringSend : Option Sender
  finalState : Option Sender
  frames : List Frame
  ret : Except String Unit

/-- Embedding of qwen_ws_send (main.rs lines 218-242): take the
send-half out of the state; if none is present return the
"WebSocket not connected" error; otherwise send one text frame, put
the send-half back unconditionally, and return the mapped result of
the write. -/
def qwen_ws_send (st : Option Sender) (message : String) (io : SendOutcome) : SendCall :=
  match st with
  | none => SendCall.mk none none [] (Except.error ("WebSocket not connected"))
  | some sender =>
      SendCall.mk none (some sender) [Frame.text message]
        (match io with
          | SendOutcome.ok => Except.ok ()
          | SendOutcome.err e => Except.error ("Failed to send message: " ++ e))

/-- Embedding of qwen_ws_close (main.rs lines 244-258): take the
send-half out of the state; if none is present return the
"WebSocket not connected" error; otherwise send one close frame and
return the mapped result. The send-half is dropped, never put back. -/
def qwen_ws_close (st : Option Sender) (io : SendOutcome) : SendCall :=
  match st with
  | none => SendCall.mk none none [] (Except.error ("WebSocket not connected"))
  | some _sender =>
      SendCall.mk none none [Frame.close]
        (match io with
          | SendOutcome.ok => Except.ok ()
          | SendOutcome.err e => Except.error ("Failed to close connection: " ++ e))

/-- Outcome of the fallible steps of qwen_ws_connect, supplied as a
parameter: URL parsing can fail, the parsed URI can lack an
authority, building the upgrade request can fail, the handshake
(connect_async) can fail, or everything succeeds and yields the
send-half of the split stream. -/
inductive ConnectStep where
  | parseFail (e : String)
  | noAuthority
  | buildFail (e : String)
  | handshakeFail (e : String)
  | success (write : Sender)
deriving DecidableEq

/-- Embedding of qwen_ws_connect (main.rs lines 142-216): each failing
step returns early with its mapped error message via the `?`
operator, leaving the shared state untouched; only after a
successful handshake is the send-half stored (overwriting any
previous value). -/
def qwen_ws_connect (st : Option Sender) (step : ConnectStep) : Option Sender × Except String Unit :=
  match step with
  | ConnectStep.parseFail e => (st, Except.error ("Failed to parse URL: " ++ e))
  | ConnectStep.noAuthority => (st, Except.error ("Missing authority in URL"))
  | ConnectStep.buildFail e => (st, Except.error ("Failed to build request: " ++ e))
  | ConnectStep.handshakeFail e => (st, Except.error ("Failed to connect: " ++ e))
  | ConnectStep.success write => (some write, Except.ok ())

/-- What one start_vrc_listener call did: returned early because the
flag was already set, or set the flag and spawned the listener
thread. -/
inductive StartAction where
  | returnedEarly
  | spawnedListener
deriving DecidableEq

/-- Embedding of the guard of start_vrc_listener (main.rs lines
88-97): if LISTENER_STARTED is set, return immediately; otherwise
set it and spawn the listener thread. -/
def start_vrc_listener (started : Bool) : Bool × StartAction :=
  if started then (true, StartAction.returnedEarly)
  else (true, StartAction.spawnedListener)

/-- Process-lifetime events that could conceivably touch the
LISTENER_STARTED flag: a start_vrc_listener call, a bind failure in
the spawned thread, and termination of the receive loop. In the
source the spawned thread never writes the flag, so the latter two
leave it unchanged. -/
inductive ProcEvent where
  | startCall
  | listenerBindFailed
  | listenerLoopTerminated
deriving DecidableEq

/-- One step of the flag state (flag value, number of listener threads
spawned so far) under a process event. Only startCall touches the
flag, mirroring that LISTENER_STARTED is written nowhere else in the
source. -/
def listenerStep (st : Bool × Nat) (ev : ProcEvent) : Bool × Nat :=
  match ev with
  | ProcEvent.startCall =>
      let r := start_vrc_listener st.1
      (r.1, st.2 + (if r.2 = StartAction.spawnedListener then 1 else 0))
  | ProcEvent.listenerBindFailed => st
  | ProcEvent.listenerLoopTerminated => st

/-- Flag value and spawn count after a sequence of process events,
starting from the initial state (flag clear, nothing spawned). -/
def listenerRun (evs : List ProcEvent) : Bool × Nat :=
  evs.foldl listenerStep (false, 0)

/-- OSC argument values (the rosc OscType variants the program
touches: booleans, plus integers and strings to represent the
non-boolean cases of the filter). -/
inductive OscType where
  | boolVal (b : Bool)
  | intVal (i : Int)
  | strVal (s : String)
deriving DecidableEq

/-- Embedding of rosc OscType::bool(): some b when the value is the
boolean variant, none otherwise. -/
def OscType.bool : OscType → Option Bool
  | OscType.boolVal b => some b
  | _ => none

/-- A decoded OSC message: an address (its UTF-8 bytes) and an ordered
argument list. -/
structure OscMessage where
  addr : List Nat
  args : List OscType
deriving DecidableEq

/-- A decoded OSC packet: a single message or a bundle. -/
inductive OscPacket where
  | Message (msg : OscMessage)
  | Bundle (content : List OscPacket)

/-- UTF-8 bytes of a string (the addresses involved are ASCII, so one
byte per character). -/
def strBytes (s : String) : List Nat :=
  s.toList.map Char.toNat

/-- Byte form of the address the listener filters on. -/
def muteSelfAddr : List Nat := strBytes ("/avatar/parameters/MuteSelf")

/-- Outcome of the per-packet body of the listener loop: exactly one
vrchat-mute event with payload b, no event, or a panic of the
listener thread. -/
inductive StepOutcome where
  | emit (b : Bool)
  | noEvent
  | panic
deriving DecidableEq

/-- Embedding of the packet match in the listener loop (main.rs lines
110-124): for a message whose address equals
/avatar/parameters/MuteSelf, the first argument is accessed with
msg.args.first().unwrap() - a panic when the argument list is empty -
and an event is emitted when that argument is a boolean; every other
message, and every bundle, produces no event. -/
def handlePacket : OscPacket → StepOutcome
  | OscPacket.Message msg =>
      if msg.addr = muteSelfAddr then
        match msg.args.head? with
        | none => StepOutcome.panic
        | some a =>
            match a.bool with
            | some mute => StepOutcome.emit mute
            | none => StepOutcome.noEvent
      else StepOutcome.noEvent
  | OscPacket.Bundle _ => StepOutcome.noEvent

/-- Payloads of the vrchat-mute events emitted by one loop body. -/
def eventsOf : StepOutcome → List Bool
  | StepOutcome.emit b => [b]
  | StepOutcome.noEvent => []
  | StepOutcome.panic => []

/-- Modelled from the spec: OSC 1.0 string padding - the bytes of the
string followed by one to four null bytes reaching a multiple of
four. The rosc crate is an external dependency, so the codec is
modelled from the wire format the spec describes. -/
def osc_pad (s : List Nat) : List Nat :=
  s ++ List.replicate (4 - s.length % 4) 0

/-- Modelled from the spec: read one padded OSC string from the front
of a byte sequence, returning the string bytes and the remainder, or
none when no null terminator is inside the buffer. -/
def parseOscString (bytes : List Nat) : Option (List Nat × List Nat) :=
  let s := bytes.takeWhile (fun x => x != 0)
  if s.length = bytes.length then none
  else
    let total := s.length + (4 - s.length % 4)
    if bytes.length < total then none
    else some (s, bytes.drop total)

/-- Modelled from the spec: the rosc decoder (decode_udp) restricted
to the packets the verified claims quantify over - message packets
whose single argument is a boolean (type tag string comma-T or
comma-F). The address must start with a slash (byte 47); any other
byte sequence is a decode failure (none). -/
def decode_udp (bytes : List Nat) : Option OscPacket :=
  match parseOscString bytes with
  | none => none
  | some (addrB, rest) =>
      if addrB.head? = some 47 then
        match parseOscString rest with
        | none => none
        | some (tags, _) =>
            match tags with
            | [44, 84] => some (OscPacket.Message (OscMessage.mk addrB [OscType.boolVal true]))
            | [44, 70] => some (OscPacket.Message (OscMessage.mk addrB [OscType.boolVal false]))
            | _ => none
      else none

/-- Modelled from the spec: the rosc encoder on a message carrying one
boolean argument - padded address, then the padded type tag string
(comma then T or F; booleans contribute no argument bytes). -/
def encode_bool_msg (addr : List Nat) (b : Bool) : List Nat :=
  osc_pad addr ++ osc_pad [44, if b then 84 else 70]

/-- Datagram sent by send_typing: the encoding of the fixed message
with address /chatbox/typing and the single argument Bool true
(main.rs lines 46-50). -/
def typingDatagram : List Nat := encode_bool_msg (strBytes ("/chatbox/typing")) true

/-- Modelled from the spec: encoding of the send_message datagram -
address /chatbox/input with a string argument and a trailing Bool
true (type tags comma-s-T; the string argument contributes its
padded bytes, the boolean none). -/
def encode_input_msg (msg : String) : List Nat :=
  osc_pad (strBytes ("/chatbox/input")) ++ osc_pad [44, 115, 84] ++ osc_pad (strBytes msg)

/-- Outcome of one blocking socket operation (bind or send_to),
supplied as a parameter. -/
inductive IoOutcome where
  | ok
  | err (e : String)
deriving DecidableEq

/-- How a command invocation ended: a normal return, or a panic from
an unwrap. The source signatures of send_typing and send_message
return the unit type, so no error value can be returned. -/
inductive CmdOutcome where
  | ret
  | panicked
deriving DecidableEq

/-- Embedding of send_typing (main.rs lines 43-53): bind an ephemeral
socket (unwrap - panic on failure), encode the fixed message, send
it (unwrap - panic on failure). The list collects the datagrams
successfully sent; the socket is local to the call and dropped at
its end. -/
def send_typing (bindIo : IoOutcome) (sendIo : IoOutcome) : CmdOutcome × List (List Nat) :=
  match bindIo with
  | IoOutcome.err _ => (CmdOutcome.panicked, [])
  | IoOutcome.ok =>
      match sendIo with
      | IoOutcome.err _ => (CmdOutcome.panicked, [])
      | IoOutcome.ok => (CmdOutcome.ret, [typingDatagram])

/-- Embedding of send_message (main.rs lines 55-65): same shape as
send_typing with the chatbox-input message. -/
def send_message (msg : String) (bindIo : IoOutcome) (sendIo : IoOutcome) : CmdOutcome × List (List Nat) :=
  match bindIo with
  | IoOutcome.err _ => (CmdOutcome.panicked, [])
  | IoOutcome.ok =>
      match sendIo with
      | IoOutcome.err _ => (CmdOutcome.panicked, [])
      | IoOutcome.ok => (CmdOutcome.ret, [encode_input_msg msg])

/-- Outcome of one recv_from call on the listener socket, supplied as
a parameter: a datagram (its bytes) or a socket-level error. -/
inductive RecvOutcome where
  | ok (bytes : List Nat)
  | recvErr (e : String)

/-- What one iteration of the listener receive loop does: continue to
the next iteration having emitted the given events, leave the loop
(break), or panic the listener thread. -/
inductive LoopStep where
  | nextIter (events : List Bool)
  | breakLoop
  | panic
deriving DecidableEq

/-- True when a loop step continues to the next iteration. -/
def LoopStep.isNextIter : LoopStep → Bool
  | LoopStep.nextIter _ => true
  | _ => false

/-- Embedding of one iteration of the listener receive loop (main.rs
lines 105-131): a recv error breaks the loop; a received datagram is
decoded with decode_udp(..).unwrap() - a panic when decoding fails -
and the decoded packet is handled, the loop then continuing. -/
def listenerLoopStep (r : RecvOutcome) : LoopStep :=
  match r with
  | RecvOutcome.recvErr _ => LoopStep.breakLoop
  | RecvOutcome.ok bytes =>
      match decode_udp bytes with
      | none => LoopStep.panic
      | some p =>
          match handlePacket p with
          | StepOutcome.panic => LoopStep.panic
          | out => LoopStep.nextIter (eventsOf out)

/-- Invariant of the event fold behind the listener flag theorem: from
any starting state, the flag ends up set iff it was set or a start
call occurs in the trace, and the spawn count grows by one exactly
when the flag was clear and a start call occurs. -/
theorem listenerRun_invariant (evs : List ProcEvent) (st : Bool × Nat) :
    evs.foldl listenerStep st =
      ((st.1 || decide (ProcEvent.startCall ∈ evs)),
        st.2 + (if st.1 then 0 else if ProcEvent.startCall ∈ evs then 1 else 0)) := by
  induction evs generalizing st with
  | nil => simp
  | cons ev evs ih =>
      cases ev with
      | startCall =>
          rcases st with ⟨f, c⟩
          cases f <;>
            simp [List.foldl_cons, listenerStep, start_vrc_listener, ih]
      | listenerBindFailed =>
          simp [List.foldl_cons, listenerStep, ih]
      | listenerLoopTerminated =>
          simp [List.foldl_cons, listenerStep, ih]

/-- C1: while ConnectionState holds a send-half, qwen_ws_send removes
it for the duration of the write, sends exactly one text frame
carrying the message, and restores the half afterwards whatever the
write outcome; a failed write returns the mapped error while the
state stays occupied, and a retry on the restored state succeeds. -/
theorem qwen_ws_send_take_restore (s : Sender) (m m2 e : String) (io : SendOutcome) :
    (qwen_ws_send (some s) m io).stateDuringSend = none
    ∧ (qwen_ws_send (some s) m io).frames = [Frame.text m]
    ∧ (qwen_ws_send (some s) m io).finalState = some s
    ∧ (qwen_ws_send (some s) m (SendOutcome.err e)).ret
        = Except.error ("Failed to send message: " ++ e)
    ∧ (qwen_ws_send ((qwen_ws_send (some s) m (SendOutcome.err e)).finalState)
        m2 SendOutcome.ok).ret = Except.ok () :=
  ⟨rfl, rfl, rfl, rfl, rfl⟩

/-- C2: while ConnectionState holds a send-half, qwen_ws_close removes
it and never restores it - whatever the outcome of sending the close
frame - so the state is empty afterwards and a subsequent
qwen_ws_send fails with the not-connected error. -/
theorem qwen_ws_close_terminates (s : Sender) (io io2 : SendOutcome) (m : String) :
    (qwen_ws_close (some s) io).finalState = none
    ∧ (qwen_ws_close (some s) io).frames = [Frame.close]
    ∧ (qwen_ws_send ((qwen_ws_close (some s) io).finalState) m io2).ret
        = Except.error ("WebSocket not connected") :=
  ⟨rfl, rfl, rfl⟩

/-- C3: with no send-half in ConnectionState, both qwen_ws_send and
qwen_ws_close return the not-connected error, send no frame, and
leave the state empty. -/
theorem not_connected_behaviour (m : String) (io : SendOutcome) :
    (qwen_ws_send none m io).ret = Except.error ("WebSocket not connected")
    ∧ (qwen_ws_send none m io).finalState = none
    ∧ (qwen_ws_send none m io).frames = []
    ∧ (qwen_ws_close none io).ret = Except.error ("WebSocket not connected")
    ∧ (qwen_ws_close none io).finalState = none
    ∧ (qwen_ws_close none io).frames = [] :=
  ⟨rfl, rfl, rfl, rfl, rfl, rfl⟩

/-- C4: every failing step of qwen_ws_connect - URL parse failure,
missing authority, request build failure, handshake failure -
returns its descriptive error and leaves ConnectionState exactly as
it was before the call. -/
theorem qwen_ws_connect_failure_preserves_state (st : Option Sender) (e : String) :
    qwen_ws_connect st (ConnectStep.parseFail e)
        = (st, Except.error ("Failed to parse URL: " ++ e))
    ∧ qwen_ws_connect st ConnectStep.noAuthority
        = (st, Except.error ("Missing authority in URL"))
    ∧ qwen_ws_connect st (ConnectStep.buildFail e)
        = (st, Except.error ("Failed to build request: " ++ e))
    ∧ qwen_ws_connect st (ConnectStep.handshakeFail e)
        = (st, Except.error ("Failed to connect: " ++ e)) :=
  ⟨rfl, rfl, rfl, rfl⟩

/-- C5: the listener started-flag is monotone and the listener is
spawned at most once: over any trace of process events the flag is
set iff a start call occurred (bind failures and loop termination
never clear it, and appending further events never reverts it), the
number of spawned receivers is one after any number of start calls
and zero before the first, and a call with the flag already set
returns early. -/
theorem listener_started_once (evs more : List ProcEvent) (f : Bool) :
    (listenerRun evs).1 = decide (ProcEvent.startCall ∈ evs)
    ∧ (listenerRun evs).2 = (if ProcEvent.startCall ∈ evs then 1 else 0)
    ∧ (listenerRun (evs ++ more)).1
        = ((listenerRun evs).1 || decide (ProcEvent.startCall ∈ more))
    ∧ start_vrc_listener true = (true, StartAction.returnedEarly)
    ∧ (start_vrc_listener f).1 = true := by
  refine ⟨?_, ?_, ?_, rfl, ?_⟩
  · rw [listenerRun, listenerRun_invariant]
    simp
  · rw [listenerRun, listenerRun_invariant]
    simp
  · rw [listenerRun, listenerRun, listenerRun_invariant, listenerRun_invariant]
    simp [List.mem_append, Bool.or_assoc]
  · cases f <;> rfl

/-- Helper: takeWhile with a nonzero predicate consumes exactly the
nonzero prefix up to the first null byte. -/
theorem takeWhile_ne_zero_append (s t : List Nat) (h : ∀ x ∈ s, x ≠ 0) :
    (s ++ 0 :: t).takeWhile (fun x => x != 0) = s := by
  induction s with
  | nil => simp [List.takeWhile_cons]
  | cons a as ih =>
      have ha : a ≠ 0 := h a (by simp)
      simp [List.takeWhile_cons, ha, ih (fun x hx => h x (by simp [hx]))]

/-- Helper: reading one padded OSC string from a buffer that starts
with the padding of a null-free string returns that string and the
rest of the buffer. -/
theorem parseOscString_osc_pad (s t : List Nat) (h : ∀ x ∈ s, x ≠ 0) :
    parseOscString (osc_pad s ++ t) = some (s, t) := by
  have hklt : s.length % 4 < 4 := Nat.mod_lt _ (by norm_num)
  have hk : 4 - s.length % 4 = (3 - s.length % 4) + 1 := by omega
  have hrep : List.replicate (4 - s.length % 4) (0 : Nat)
      = 0 :: List.replicate (3 - s.length % 4) 0 := by
    rw [hk, List.replicate_succ]
  have hbytes : osc_pad s ++ t
      = s ++ 0 :: (List.replicate (3 - s.length % 4) 0 ++ t) := by
    simp [osc_pad, hrep]
  have htake : ((osc_pad s ++ t).takeWhile (fun x => x != 0)) = s := by
    rw [hbytes]
    exact takeWhile_ne_zero_append s _ h
  have hlen : (osc_pad s ++ t).length = s.length + (4 - s.length % 4) + t.length := by
    simp [osc_pad]
    omega
  have hpadlen : s.length + (4 - s.length % 4) = (osc_pad s).length := by
    simp [osc_pad]
  simp only [parseOscString, htake]
  rw [if_neg (by omega : ¬ s.length = (osc_pad s ++ t).length)]
  rw [if_neg (by omega : ¬ (osc_pad s ++ t).length < s.length + (4 - s.length % 4))]
  rw [hpadlen, List.drop_left]

/-- C6: a decoded message whose address is /avatar/parameters/MuteSelf
and whose first argument is the boolean b yields exactly one
vrchat-mute event carrying b; a message with any other address, and
any bundle packet, yields zero events. -/
theorem vrchat_mute_filter (b : Bool) (rest : List OscType) (msg : OscMessage)
    (c : List OscPacket) :
    eventsOf (handlePacket (OscPacket.Message
        (OscMessage.mk muteSelfAddr (OscType.boolVal b :: rest)))) = [b]
    ∧ (msg.addr ≠ muteSelfAddr → eventsOf (handlePacket (OscPacket.Message msg)) = [])
    ∧ eventsOf (handlePacket (OscPacket.Bundle c)) = [] := by
  refine ⟨?_, ?_, rfl⟩
  · simp [handlePacket, OscType.bool, eventsOf]
  · intro hne
    simp [handlePacket, hne, eventsOf]

/-- Witness for C6 at concrete packets: the MuteSelf message with
argument true emits one event, the /chatbox/input message emits
none, and the empty bundle emits none. -/
theorem vrchat_mute_filter_witness :
    eventsOf (handlePacket (OscPacket.Message
        (OscMessage.mk muteSelfAddr [OscType.boolVal true]))) = [true]
    ∧ (OscMessage.mk (strBytes ("/chatbox/input")) []).addr ≠ muteSelfAddr
    ∧ eventsOf (handlePacket (OscPacket.Message
        (OscMessage.mk (strBytes ("/chatbox/input")) []))) = []
    ∧ eventsOf (handlePacket (OscPacket.Bundle [])) = [] := by
  have h := vrchat_mute_filter true [] (OscMessage.mk (strBytes ("/chatbox/input")) []) []
  have hne : (OscMessage.mk (strBytes ("/chatbox/input")) []).addr ≠ muteSelfAddr := by
    decide
  exact ⟨h.1, hne, h.2.1 hne, h.2.2⟩

/-- C10: a decoded message whose address is the MuteSelf address but
whose argument list is empty makes the unguarded first-argument
access panic; under the precondition that the argument list is
nonempty the filter never panics. -/
theorem mute_filter_empty_args_panic (msg : OscMessage) :
    handlePacket (OscPacket.Message (OscMessage.mk muteSelfAddr [])) = StepOutcome.panic
    ∧ (msg.args ≠ [] → handlePacket (OscPacket.Message msg) ≠ StepOutcome.panic) := by
  constructor
  · simp [handlePacket]
  · intro hne
    rcases msg with ⟨addr, args⟩
    cases args with
    | nil => exact absurd rfl hne
    | cons a as =>
        by_cases haddr : addr = muteSelfAddr
        · cases ha : a.bool <;> simp [handlePacket, haddr, ha]
        · simp [handlePacket, haddr]

/-- Witness for C10: the empty-argument MuteSelf message panics, while
the same message with one boolean argument does not. -/
theorem mute_filter_empty_args_panic_witness :
    handlePacket (OscPacket.Message (OscMessage.mk muteSelfAddr [])) = StepOutcome.panic
    ∧ ([OscType.boolVal true] : List OscType) ≠ []
    ∧ handlePacket (OscPacket.Message
        (OscMessage.mk muteSelfAddr [OscType.boolVal true])) ≠ StepOutcome.panic := by
  have h := mute_filter_empty_args_panic (OscMessage.mk muteSelfAddr [OscType.boolVal true])
  exact ⟨h.1, by decide, h.2 (by decide)⟩

/-- Counterexample to C7 as stated: the bytes 1, 2, 3 do not decode,
and the listener loop step on that datagram panics the listener
thread instead of continuing to the next iteration. -/
theorem listener_decode_failure_cex :
    decode_udp [1, 2, 3] = none
    ∧ listenerLoopStep (RecvOutcome.ok [1, 2, 3]) = LoopStep.panic
    ∧ (listenerLoopStep (RecvOutcome.ok [1, 2, 3])).isNextIter = false :=
  ⟨rfl, rfl, rfl⟩

/-- C7 (amended): a received datagram whose bytes fail to decode makes
the unwrap panic, terminating the receive loop; the decode failure
is fatal to the whole loop, not only to that datagram. -/
theorem listener_decode_failure_panics (bytes : List Nat)
    (h : decode_udp bytes = none) :
    listenerLoopStep (RecvOutcome.ok bytes) = LoopStep.panic := by
  simp [listenerLoopStep, h]

/-- Witness for the amended C7 at the concrete malformed datagram
consisting of a single null byte. -/
theorem listener_decode_failure_panics_witness :
    decode_udp [0] = none
    ∧ listenerLoopStep (RecvOutcome.ok [0]) = LoopStep.panic :=
  ⟨rfl, listener_decode_failure_panics [0] rfl⟩

/-- Counterexample to C8 as stated: a bind failure in send_typing or
send_message panics the command instead of returning an I/O error -
the source return type is the unit type, so no error value reaches
the caller. -/
theorem osc_send_error_return_cex :
    (send_typing (IoOutcome.err ("address in use")) IoOutcome.ok).1 = CmdOutcome.panicked
    ∧ (send_message ("hello") (IoOutcome.err ("address in use")) IoOutcome.ok).1
        = CmdOutcome.panicked
    ∧ CmdOutcome.panicked ≠ CmdOutcome.ret :=
  ⟨rfl, rfl, by decide⟩

/-- C8 (amended): in send_typing and send_message a bind or send
failure makes the unwrap panic rather than returning an error, and a
fully successful call sends exactly one encoded datagram; the socket
is bound inside the call and dropped at its end, so no socket is
reused across calls. -/
theorem osc_send_failure_panics (m e : String) (io : IoOutcome) :
    send_typing (IoOutcome.err e) io = (CmdOutcome.panicked, [])
    ∧ send_typing IoOutcome.ok (IoOutcome.err e) = (CmdOutcome.panicked, [])
    ∧ send_typing IoOutcome.ok IoOutcome.ok = (CmdOutcome.ret, [typingDatagram])
    ∧ send_message m (IoOutcome.err e) io = (CmdOutcome.panicked, [])
    ∧ send_message m IoOutcome.ok (IoOutcome.err e) = (CmdOutcome.panicked, [])
    ∧ send_message m IoOutcome.ok IoOutcome.ok = (CmdOutcome.ret, [encode_input_msg m]) :=
  ⟨rfl, rfl, rfl, rfl, rfl, rfl⟩

/-- C9: encoding a message with a valid address (nonempty, starting
with a slash, containing no null byte) and one boolean argument and
then decoding the bytes yields exactly the original address and the
original boolean value. -/
theorem encode_decode_roundtrip (addr : List Nat) (b : Bool)
    (h0 : 0 ∉ addr) (h1 : addr.head? = some 47) :
    decode_udp (encode_bool_msg addr b)
      = some (OscPacket.Message (OscMessage.mk addr [OscType.boolVal b])) := by
  have h : ∀ x ∈ addr, x ≠ 0 := fun x hx hx0 => h0 (hx0 ▸ hx)
  cases b with
  | true =>
      have hp := parseOscString_osc_pad addr (osc_pad [44, 84]) h
      have hp2 : parseOscString (osc_pad [44, 84]) = some ([44, 84], []) := rfl
      simp [decode_udp, encode_bool_msg, hp, hp2, h1]
  | false =>
      have hp := parseOscString_osc_pad addr (osc_pad [44, 70]) h
      have hp2 : parseOscString (osc_pad [44, 70]) = some ([44, 70], []) := rfl
      simp [decode_udp, encode_bool_msg, hp, hp2, h1]

/-- Witness for C9 at the concrete address consisting of a single
slash byte and the argument true. -/
theorem encode_decode_roundtrip_witness :
    (0 : Nat) ∉ ([47] : List Nat)
    ∧ ([47] : List Nat).head? = some 47
    ∧ decode_udp (encode_bool_msg [47] true)
        = some (OscPacket.Message (OscMessage.mk [47] [OscType.boolVal true])) :=
  ⟨by decide, by decide, encode_decode_roundtrip [47] true (by decide) (by decide)⟩

end Kikitan
